import Mathlib

/-!
Verification of the fallback text-embedding core of the repository
(`advanced_agent_huggingface_embeddings.py` and `demo_huggingface_embeddings.py`).

Text inputs are modelled as their UTF-8 byte sequences (`List Nat`, each
element a byte value below 256).  Python floats produced by `byte / 255.0`
are modelled as rationals; all claimed equalities and order relations are
exact in this model.  `hashlib.md5` is modelled by a full executable MD5
implementation over byte lists (RFC 1321), validated below against the
standard test digests.
-/

/-- MD5 per-round left-rotation amounts (RFC 1321). -/
def md5_s : List Nat :=
  [7, 12, 17, 22, 7, 12, 17, 22, 7, 12, 17, 22, 7, 12, 17, 22,
   5, 9, 14, 20, 5, 9, 14, 20, 5, 9, 14, 20, 5, 9, 14, 20,
   4, 11, 16, 23, 4, 11, 16, 23, 4, 11, 16, 23, 4, 11, 16, 23,
   6, 10, 15, 21, 6, 10, 15, 21, 6, 10, 15, 21, 6, 10, 15, 21]

/-- MD5 per-round additive constants, floor(2^32 * |sin(i+1)|) (RFC 1321). -/
def md5_K : List Nat :=
  [0xd76aa478, 0xe8c7b756, 0x242070db, 0xc1bdceee,
   0xf57c0faf, 0x4787c62a, 0xa8304613, 0xfd469501,
   0x698098d8, 0x8b44f7af, 0xffff5bb1, 0x895cd7be,
   0x6b901122, 0xfd987193, 0xa679438e, 0x49b40821,
   0xf61e2562, 0xc040b340, 0x265e5a51, 0xe9b6c7aa,
   0xd62f105d, 0x02441453, 0xd8a1e681, 0xe7d3fbc8,
   0x21e1cde6, 0xc33707d6, 0xf4d50d87, 0x455a14ed,
   0xa9e3e905, 0xfcefa3f8, 0x676f02d9, 0x8d2a4c8a,
   0xfffa3942, 0x8771f681, 0x6d9d6122, 0xfde5380c,
   0xa4beea44, 0x4bdecfa9, 0xf6bb4b60, 0xbebfbc70,
   0x289b7ec6, 0xeaa127fa, 0xd4ef3085, 0x04881d05,
   0xd9d4d039, 0xe6db99e5, 0x1fa27cf8, 0xc4ac5665,
   0xf4292244, 0x432aff97, 0xab9423a7, 0xfc93a039,
   0x655b59c3, 0x8f0ccc92, 0xffeff47d, 0x85845dd1,
   0x6fa87e4f, 0xfe2ce6e0, 0xa3014314, 0x4e0811a1,
   0xf7537e82, 0xbd3af235, 0x2ad7d2bb, 0xeb86d391]

/-- Little-endian byte decomposition: `n` bytes of `x`. -/
def natToLEBytes : Nat → Nat → List Nat
  | 0, _ => []
  | k + 1, x => x % 256 :: natToLEBytes k (x / 256)

/-- 32-bit bitwise complement. -/
def not32 (x : Nat) : Nat := x ^^^ 0xffffffff

/-- 32-bit left rotation (for `x < 2^32`, `c ≤ 32`). -/
def rotl32 (x c : Nat) : Nat := ((x <<< c) + (x >>> (32 - c))) % 2 ^ 32

/-- Group a byte list into little-endian 32-bit words, four bytes at a time. -/
def bytesToWordsLE : List Nat → List Nat
  | b0 :: b1 :: b2 :: b3 :: rest =>
      (b0 + 256 * b1 + 65536 * b2 + 16777216 * b3) :: bytesToWordsLE rest
  | _ => []

/-- MD5 padding: append 0x80, zero bytes to 56 mod 64, then the 8-byte
little-endian bit length. -/
def md5Pad (msg : List Nat) : List Nat :=
  let len := msg.length
  let k := (120 - (len + 1) % 64) % 64
  msg ++ [0x80] ++ List.replicate k 0 ++ natToLEBytes 8 (len * 8)

/-- Split into 64-byte blocks (the input length is a multiple of 64). -/
def chunks64 (l : List Nat) : List (List Nat) :=
  (List.range (l.length / 64)).map (fun i => (l.drop (64 * i)).take 64)

/-- MD5 round nonlinear function, selected by the round index. -/
def md5F (i b c d : Nat) : Nat :=
  if i < 16 then (b &&& c) ||| (not32 b &&& d)
  else if i < 32 then (d &&& b) ||| (not32 d &&& c)
  else if i < 48 then b ^^^ c ^^^ d
  else c ^^^ (b ||| not32 d)

/-- MD5 message-word index schedule. -/
def md5G (i : Nat) : Nat :=
  if i < 16 then i
  else if i < 32 then (5 * i + 1) % 16
  else if i < 48 then (3 * i + 5) % 16
  else (7 * i) % 16

/-- One MD5 round on the state `(a, b, c, d)` with message words `M`. -/
def md5Step (M : List Nat) (st : Nat × Nat × Nat × Nat) (i : Nat) :
    Nat × Nat × Nat × Nat :=
  let a := st.1
  let b := st.2.1
  let c := st.2.2.1
  let d := st.2.2.2
  let f := (md5F i b c d + a + md5_K.getD i 0 + M.getD (md5G i) 0) % 2 ^ 32
  (d, (b + rotl32 f (md5_s.getD i 0)) % 2 ^ 32, b, c)

/-- Process one 64-byte block of an MD5 computation. -/
def md5Chunk (st : Nat × Nat × Nat × Nat) (chunk : List Nat) :
    Nat × Nat × Nat × Nat :=
  let M := bytesToWordsLE chunk
  let r := (List.range 64).foldl (md5Step M) st
  ((st.1 + r.1) % 2 ^ 32, (st.2.1 + r.2.1) % 2 ^ 32,
   (st.2.2.1 + r.2.2.1) % 2 ^ 32, (st.2.2.2 + r.2.2.2) % 2 ^ 32)

/-- The MD5 digest (16 bytes) of a byte sequence, modelling `hashlib.md5(.).digest()`. -/
def md5 (msg : List Nat) : List Nat :=
  let st := (chunks64 (md5Pad msg)).foldl md5Chunk
    (0x67452301, 0xefcdab89, 0x98badcfe, 0x10325476)
  natToLEBytes 4 st.1 ++ natToLEBytes 4 st.2.1 ++
    natToLEBytes 4 st.2.2.1 ++ natToLEBytes 4 st.2.2.2

/-- `HuggingFaceEmbedder._fallback_embedding`: the MD5 digest of the UTF-8
bytes of the text, repeated cyclically, each byte divided by 255.0. -/
def fallback_embedding (text : List Nat) : List ℚ :=
  (List.range 384).map (fun i => ((md5 text).getD (i % 16) 0 : ℚ) / 255)

/-- The trained sentence-embedding model, an external oracle: `encodeOne`
models `self.model.encode(text)` and `encodeMany` models
`self.model.encode(texts)`; either may raise (`Except.error`). -/
structure Model where
  encodeOne : List Nat → Except Unit (List ℚ)
  encodeMany : List (List Nat) → Except Unit (List (List ℚ))

/-- The state of a `HuggingFaceEmbedder` instance: `model` is `none` exactly
when `self.model is None` (degraded mode). -/
structure HuggingFaceEmbedder where
  model : Option Model
  model_name : String

/-- Outcome of `SentenceTransformer(model_name)` at construction time:
an `ImportError` (caught by the constructor) or any other exception
(not caught). -/
inductive LoadErr
  | importError
  | otherError

/-- `HuggingFaceEmbedder.__init__`: tries to load the trained model; only
`ImportError` is caught, producing the degraded state with
`model_name = "fallback"`; any other exception propagates. -/
def HuggingFaceEmbedder.init (load : String → Except LoadErr Model)
    (name : String) : Except LoadErr HuggingFaceEmbedder :=
  match load name with
  | .ok m => .ok ⟨some m, name⟩
  | .error .importError => .ok ⟨none, "fallback"⟩
  | .error .otherError => .error .otherError

/-- `HuggingFaceEmbedder.get_embedding`: trained model if present, falling
back to `fallback_embedding` on a per-call error. -/
def get_embedding (e : HuggingFaceEmbedder) (text : List Nat) : List ℚ :=
  match e.model with
  | none => fallback_embedding text
  | some m =>
    match m.encodeOne text with
    | .ok v => v
    | .error _ => fallback_embedding text

/-- `HuggingFaceEmbedder.get_embeddings`: one batch call to the trained model
if present; on error the whole batch is recomputed with the fallback. -/
def get_embeddings (e : HuggingFaceEmbedder) (texts : List (List Nat)) :
    List (List ℚ) :=
  match e.model with
  | none => texts.map fallback_embedding
  | some m =>
    match m.encodeMany texts with
    | .ok vs => vs
    | .error _ => texts.map fallback_embedding

/-- Single bytes Python `str.split()` treats as whitespace: TAB, LF, VT, FF,
CR (0x09-0x0D), FS, GS, RS, US (0x1C-0x1F) and SPACE (0x20). -/
def isSpaceByte (b : Nat) : Bool :=
  (9 ≤ b && b ≤ 13) || (28 ≤ b && b ≤ 31) || b == 32

/-- Third bytes `b` for which the UTF-8 sequence E2 80 `b` encodes a Python
whitespace character: U+2000-U+200A (0x80-0x8A), U+2028 (0xA8), U+2029
(0xA9) and U+202F (0xAF). -/
def isSpaceE280 (b : Nat) : Bool :=
  (128 ≤ b && b ≤ 138) || b == 168 || b == 169 || b == 175

/-- Number of maximal runs of non-whitespace characters over the UTF-8
bytes, with Python's full whitespace set: the single-byte whitespace of
`isSpaceByte` plus U+0085 (C2 85), U+00A0 (C2 A0), U+1680 (E1 9A 80),
U+2000-U+200A, U+2028, U+2029, U+202F (E2 80 b with `isSpaceE280 b`),
U+205F (E2 81 9F) and U+3000 (E3 80 80).  In valid UTF-8 the leading bytes
of these sequences never occur inside another character's encoding, and any
byte of a non-whitespace character extends the current run, so byte-wise
scanning with these look-aheads counts exactly the tokens of
`text.split()`; `inTok` records whether the previous character was inside a
token. -/
def countTokensAux : List Nat → Bool → Nat
  | [], _ => 0
  | 0xC2 :: 0x85 :: rest, _ => countTokensAux rest false
  | 0xC2 :: 0xA0 :: rest, _ => countTokensAux rest false
  | 0xE1 :: 0x9A :: 0x80 :: rest, _ => countTokensAux rest false
  | 0xE2 :: 0x80 :: b :: rest, inTok =>
    if isSpaceE280 b then countTokensAux rest false
    else (if inTok then 0 else 1) + countTokensAux rest true
  | 0xE2 :: 0x81 :: 0x9F :: rest, _ => countTokensAux rest false
  | 0xE3 :: 0x80 :: 0x80 :: rest, _ => countTokensAux rest false
  | b :: rest, inTok =>
    if isSpaceByte b then countTokensAux rest false
    else (if inTok then 0 else 1) + countTokensAux rest true

/-- `len(text.split())`: the whitespace-token count of the text. -/
def countTokens (text : List Nat) : Nat := countTokensAux text false

/-- The usage dictionary `{"tokens": ..., "model": ...}`. -/
structure Usage where
  tokens : Nat
  model : String
  deriving DecidableEq

/-- `HuggingFaceEmbedder.get_embedding_and_usage`: the embedding together with
the usage record built from `len(text.split())` and `self.model_name`. -/
def get_embedding_and_usage (e : HuggingFaceEmbedder) (text : List Nat) :
    List ℚ × Usage :=
  (get_embedding e text, ⟨countTokens text, e.model_name⟩)

/-- Which path actually produced the vector returned by
`get_embedding e text`: `true` when the fallback ran (degraded client, or
per-call model error), `false` when the trained model's result was returned.
Spec-side instrumentation used to state the labelling claim. -/
def producedByFallback (e : HuggingFaceEmbedder) (text : List Nat) : Bool :=
  match e.model with
  | none => true
  | some m =>
    match m.encodeOne text with
    | .ok _ => false
    | .error _ => true

/-- `np.dot` on two equal-length vectors. -/
def dotList (a b : List ℚ) : ℚ := (List.zipWith (fun x y => x * y) a b).sum

/-- The square of `np.linalg.norm`: the sum of squared components. -/
def normSqList (a : List ℚ) : ℚ := dotList a a

/-- `cosine_similarity(a, b)` from `demo_huggingface_embeddings.py`:
`np.dot(a, b) / (np.linalg.norm(a) * np.linalg.norm(b))`, with the
nonnegative square root inside `np.linalg.norm` abstracted as the oracle
`sqrt'` (the demo's claims need only elementary properties of it). -/
def cosine_similarity (sqrt' : ℚ → ℚ) (a b : List ℚ) : ℚ :=
  dotList a b / (sqrt' (normSqList a) * sqrt' (normSqList b))

theorem natToLEBytes_length (n x : Nat) : (natToLEBytes n x).length = n := by
  induction n generalizing x with
  | zero => rfl
  | succ k ih => simp [natToLEBytes, ih]

theorem natToLEBytes_mem_lt {n x b : Nat} (h : b ∈ natToLEBytes n x) :
    b < 256 := by
  induction n generalizing x with
  | zero => simp [natToLEBytes] at h
  | succ k ih =>
    simp only [natToLEBytes, List.mem_cons] at h
    rcases h with h | h
    · subst h; exact Nat.mod_lt _ (by norm_num)
    · exact ih h

theorem md5_length (msg : List Nat) : (md5 msg).length = 16 := by
  simp [md5, natToLEBytes_length]

theorem md5_mem_lt {msg : List Nat} {b : Nat} (h : b ∈ md5 msg) : b < 256 := by
  simp only [md5, List.mem_append] at h
  rcases h with ((h | h) | h) | h <;> exact natToLEBytes_mem_lt h

theorem fallback_embedding_length (text : List Nat) :
    (fallback_embedding text).length = 384 := by
  simp [fallback_embedding]

theorem fallback_embedding_getD (text : List Nat) (i : Nat) (h : i < 384) :
    (fallback_embedding text).getD i 0 =
      ((md5 text).getD (i % 16) 0 : ℚ) / 255 := by
  simp [fallback_embedding, List.getD_eq_getElem?_getD, List.getElem?_map,
    List.getElem?_range, h]

/-- A model whose invocation raises exactly on the empty text (witness data). -/
def flakyModel : Model where
  encodeOne := fun t => if t = [] then .error () else .ok [1]
  encodeMany := fun _ => .error ()

/-- A model that succeeds on every input, batched or not (witness data). -/
def constModel : Model where
  encodeOne := fun _ => .ok [1]
  encodeMany := fun ts => .ok (ts.map (fun _ => [1]))

/-- A model whose every invocation raises (witness data). -/
def failModel : Model where
  encodeOne := fun _ => .error ()
  encodeMany := fun _ => .error ()

/-- Inversion for the constructor: a successfully constructed client either
holds the loaded model and the requested name, or is the degraded state
`⟨none, "fallback"⟩` produced by catching `ImportError`. -/
theorem init_ok_cases (load : String → Except LoadErr Model) (name : String)
    (e : HuggingFaceEmbedder)
    (h : HuggingFaceEmbedder.init load name = .ok e) :
    (∃ m, load name = .ok m ∧ e = ⟨some m, name⟩) ∨
    (load name = .error .importError ∧ e = ⟨none, "fallback"⟩) := by
  unfold HuggingFaceEmbedder.init at h
  cases hl : load name with
  | ok m =>
    rw [hl] at h
    injection h with h
    exact Or.inl ⟨m, rfl, h.symm⟩
  | error err =>
    cases err with
    | importError =>
      rw [hl] at h
      injection h with h
      exact Or.inr ⟨rfl, h.symm⟩
    | otherError => rw [hl] at h; cases h

/-- C1: for every text, `_fallback_embedding` returns exactly 384 values,
the value at index `i` is byte `i mod 16` of the MD5 digest of the text's
UTF-8 bytes divided by 255, and hence the vector is 16-periodic: element `i`
equals element `i + 16` whenever `i + 16 < 384`. -/
theorem fallback_embedding_spec (text : List Nat) :
    (fallback_embedding text).length = 384 ∧
    (∀ i, i < 384 →
      (fallback_embedding text).getD i 0 =
        ((md5 text).getD (i % 16) 0 : ℚ) / 255) ∧
    (∀ i, i + 16 < 384 →
      (fallback_embedding text).getD i 0 =
        (fallback_embedding text).getD (i + 16) 0) := by
  refine ⟨fallback_embedding_length text,
    fun i h => fallback_embedding_getD text i h, fun i h => ?_⟩
  rw [fallback_embedding_getD text i (by omega),
    fallback_embedding_getD text (i + 16) h, Nat.add_mod_right]

/-- Witness for C1 at the empty text and concrete indices. -/
theorem fallback_embedding_spec_witness :
    (fallback_embedding []).getD 5 0 = ((md5 []).getD (5 % 16) 0 : ℚ) / 255 ∧
    (fallback_embedding []).getD 0 0 = (fallback_embedding []).getD (0 + 16) 0 :=
  ⟨(fallback_embedding_spec []).2.1 5 (by norm_num),
   (fallback_embedding_spec []).2.2 0 (by norm_num)⟩

/-- C2: the fallback path is deterministic — any two degraded clients (any
runs, any residual state) give exactly equal 384-element vectors on the same
text. -/
theorem degraded_embedding_deterministic (e1 e2 : HuggingFaceEmbedder)
    (t : List Nat) (h1 : e1.model = none) (h2 : e2.model = none) :
    get_embedding e1 t = get_embedding e2 t ∧
    (get_embedding e1 t).length = 384 := by
  simp [get_embedding, h1, h2, fallback_embedding_length]

/-- Witness for C2: two distinct degraded clients on the empty string. -/
theorem degraded_embedding_deterministic_witness :
    get_embedding ⟨none, "fallback"⟩ [] = get_embedding ⟨none, "other"⟩ [] ∧
    (get_embedding ⟨none, "fallback"⟩ []).length = 384 :=
  degraded_embedding_deterministic ⟨none, "fallback"⟩ ⟨none, "other"⟩ [] rfl rfl

/-- C3 counterexample: on the text "baz" (UTF-8 bytes [98, 97, 122]) the MD5
digest has byte 255 at position 2, so output element 2 is 255/255 = 1, which
is not strictly below 1: the claimed half-open range [0.0, 1.0) fails. -/
theorem fallback_embedding_strict_range_counterexample :
    ¬ (∀ x ∈ fallback_embedding [98, 97, 122], 0 ≤ x ∧ x < 1) := by
  intro h
  have hb : (md5 [98, 97, 122]).getD (2 % 16) 0 = 255 := by decide
  have hg : (fallback_embedding [98, 97, 122]).getD 2 0 = 1 := by
    rw [fallback_embedding_getD _ 2 (by norm_num), hb]
    norm_num
  have hlen : 2 < (fallback_embedding [98, 97, 122]).length := by
    rw [fallback_embedding_length]; norm_num
  have hmem : (fallback_embedding [98, 97, 122]).getD 2 0 ∈
      fallback_embedding [98, 97, 122] := by
    rw [List.getD_eq_getElem _ _ hlen]
    exact List.getElem_mem hlen
  have := (h _ hmem).2
  rw [hg] at this
  exact absurd this (by norm_num)

/-- C3 amended: every element of the fallback vector lies in the closed
range [0, 1] (digest bytes are at most 255 and are divided by 255; the value
1 is attained exactly when a digest byte is 255). -/
theorem fallback_embedding_range (text : List Nat) :
    ∀ x ∈ fallback_embedding text, 0 ≤ x ∧ x ≤ 1 := by
  intro x hx
  simp only [fallback_embedding, List.mem_map, List.mem_range] at hx
  obtain ⟨i, hi, rfl⟩ := hx
  have h16 : i % 16 < (md5 text).length := by
    rw [md5_length]; exact Nat.mod_lt _ (by norm_num)
  have hb : (md5 text).getD (i % 16) 0 < 256 := by
    rw [List.getD_eq_getElem _ _ h16]
    exact md5_mem_lt (List.getElem_mem h16)
  have hb' : ((md5 text).getD (i % 16) 0 : ℚ) ≤ 255 := by
    exact_mod_cast Nat.le_of_lt_succ hb
  constructor
  · positivity
  · rw [div_le_one (by norm_num)]
    exact hb'

/-- Witness for the amended C3 at a concrete element of a concrete vector. -/
theorem fallback_embedding_range_witness :
    0 ≤ (fallback_embedding []).getD 0 0 ∧
    (fallback_embedding []).getD 0 0 ≤ 1 := by
  have hlen : 0 < (fallback_embedding []).length := by
    rw [fallback_embedding_length]; norm_num
  have hmem : (fallback_embedding []).getD 0 0 ∈ fallback_embedding [] := by
    rw [List.getD_eq_getElem _ _ hlen]
    exact List.getElem_mem hlen
  exact fallback_embedding_range [] _ hmem

/-- C4: a client constructed in degraded mode (model load failed with
`ImportError`) uses the fallback for every later `get_embedding` and
`get_embeddings` call and never consults a trained model; its whole state is
the immutable record `⟨none, "fallback"⟩` fixed at construction. -/
theorem degraded_client_monotone (load : String → Except LoadErr Model)
    (name : String) (e : HuggingFaceEmbedder)
    (hinit : HuggingFaceEmbedder.init load name = .ok e)
    (hdeg : e.model = none) :
    (∀ t, get_embedding e t = fallback_embedding t) ∧
    (∀ ts, get_embeddings e ts = ts.map fallback_embedding) ∧
    e = ⟨none, "fallback"⟩ := by
  rcases init_ok_cases load name e hinit with ⟨m, _, rfl⟩ | ⟨_, rfl⟩
  · cases hdeg
  · exact ⟨fun t => rfl, fun ts => rfl, rfl⟩

/-- Witness for C4: a loader that raises `ImportError`. -/
theorem degraded_client_monotone_witness :
    get_embedding ⟨none, "fallback"⟩ [97] = fallback_embedding [97] :=
  (degraded_client_monotone (fun _ => .error .importError) "model-a"
    ⟨none, "fallback"⟩ rfl rfl).1 [97]

/-- C5: per-call fallback atomicity — on a non-degraded client whose model
raises for one text, that call returns the fallback vector (no error reaches
the caller), while the same, unchanged client still returns the model's
result for any text the model encodes successfully. -/
theorem per_call_fallback (e : HuggingFaceEmbedder) (m : Model)
    (t : List Nat) (hm : e.model = some m)
    (herr : m.encodeOne t = .error ()) :
    get_embedding e t = fallback_embedding t ∧
    (∀ t' v, m.encodeOne t' = .ok v → get_embedding e t' = v) := by
  constructor
  · simp [get_embedding, hm, herr]
  · intro t' v hok
    simp [get_embedding, hm, hok]

/-- Witness for C5: a model raising exactly on the empty text. -/
theorem per_call_fallback_witness :
    get_embedding ⟨some flakyModel, "m"⟩ [] = fallback_embedding [] ∧
    get_embedding ⟨some flakyModel, "m"⟩ [97] = [1] :=
  ⟨(per_call_fallback ⟨some flakyModel, "m"⟩ flakyModel [] rfl rfl).1,
   (per_call_fallback ⟨some flakyModel, "m"⟩ flakyModel [] rfl rfl).2
     [97] [1] rfl⟩

/-- C6: batch consistency — whenever the model's batch call agrees with its
per-text calls (it reports the two per-text vectors on success and fails only
when both per-text calls would fail), `get_embeddings [t1, t2]` equals
`[get_embedding t1, get_embedding t2]`, in degraded mode unconditionally; and
on any batch failure the whole batch is recomputed with the fallback. -/
theorem batch_consistency (e : HuggingFaceEmbedder) (t1 t2 : List Nat)
    (hcons : ∀ m, e.model = some m →
      (∀ vs, m.encodeMany [t1, t2] = .ok vs →
        ∃ v1 v2, vs = [v1, v2] ∧
          m.encodeOne t1 = .ok v1 ∧ m.encodeOne t2 = .ok v2) ∧
      (m.encodeMany [t1, t2] = .error () →
        m.encodeOne t1 = .error () ∧ m.encodeOne t2 = .error ())) :
    get_embeddings e [t1, t2] = [get_embedding e t1, get_embedding e t2] ∧
    (∀ m ts, e.model = some m → m.encodeMany ts = .error () →
      get_embeddings e ts = ts.map fallback_embedding) := by
  constructor
  · cases hm : e.model with
    | none => simp [get_embeddings, get_embedding, hm]
    | some m =>
      obtain ⟨hok, herr⟩ := hcons m hm
      cases hb : m.encodeMany [t1, t2] with
      | ok vs =>
        obtain ⟨v1, v2, rfl, h1, h2⟩ := hok vs hb
        simp [get_embeddings, get_embedding, hm, hb, h1, h2]
      | error u =>
        cases u
        obtain ⟨h1, h2⟩ := herr hb
        simp [get_embeddings, get_embedding, hm, hb, h1, h2]
  · intro m ts hm hb
    simp [get_embeddings, hm, hb]

/-- Witness for C6: a trained client whose model encodes every batch
consistently. -/
theorem batch_consistency_witness :
    get_embeddings ⟨some constModel, "m"⟩ [[], [97]] =
      [get_embedding ⟨some constModel, "m"⟩ [],
       get_embedding ⟨some constModel, "m"⟩ [97]] :=
  (batch_consistency ⟨some constModel, "m"⟩ [] [97] (fun m hm => by
    injection hm with hm
    subst hm
    constructor
    · intro vs hvs
      refine ⟨[1], [1], ?_, rfl, rfl⟩
      simp only [constModel, List.map_cons, List.map_nil] at hvs
      injection hvs with hvs
      exact hvs.symm
    · intro hb
      simp [constModel] at hb)).1

/-- C7 counterexample: on a non-degraded client whose model raises, the
returned vector is produced by the fallback path, yet the usage record's
label is the trained model's name, not "fallback" — the label does not
identify which path produced the vector. -/
theorem usage_label_counterexample :
    producedByFallback
        ⟨some failModel, "sentence-transformers/all-MiniLM-L6-v2"⟩ [] = true ∧
    (get_embedding_and_usage
        ⟨some failModel, "sentence-transformers/all-MiniLM-L6-v2"⟩ []).1 =
      fallback_embedding [] ∧
    (get_embedding_and_usage
        ⟨some failModel, "sentence-transformers/all-MiniLM-L6-v2"⟩ []).2.model ≠
      "fallback" :=
  ⟨rfl, rfl, by decide⟩

/-- C7 amended: `get_embedding_and_usage` returns the pair of
`get_embedding` and a usage record whose token count is the whitespace-token
count of the text and whose label is the client's `model_name` — which
records the construction-time mode (degraded clients are labelled
"fallback"), not the per-call producing path. -/
theorem get_embedding_and_usage_spec (load : String → Except LoadErr Model)
    (name : String) (e : HuggingFaceEmbedder) (t : List Nat)
    (hinit : HuggingFaceEmbedder.init load name = .ok e) :
    get_embedding_and_usage e t =
      (get_embedding e t, ⟨countTokens t, e.model_name⟩) ∧
    (e.model = none → e.model_name = "fallback") := by
  refine ⟨rfl, fun hdeg => ?_⟩
  rcases init_ok_cases load name e hinit with ⟨m, _, rfl⟩ | ⟨_, rfl⟩
  · cases hdeg
  · rfl

/-- Witness for the amended C7: a degraded client on a two-token text. -/
theorem get_embedding_and_usage_spec_witness :
    get_embedding_and_usage ⟨none, "fallback"⟩ [97, 32, 98] =
      (get_embedding ⟨none, "fallback"⟩ [97, 32, 98],
       ⟨countTokens [97, 32, 98], "fallback"⟩) :=
  (get_embedding_and_usage_spec (fun _ => .error .importError) "model-a"
    ⟨none, "fallback"⟩ [97, 32, 98] rfl).1

/-- C8: at the failing input a = [0, 0], b = [1, 0] the demo's
`cosine_similarity` computes numerator `np.dot(a, b) = 0` and denominator
`np.linalg.norm(a) * np.linalg.norm(b) = 0` (for any square-root function
sending 0 to 0), i.e. the unguarded division 0/0 — `NaN` in IEEE
arithmetic — contradicting the required zero-vector policy. -/
theorem cosine_zero_vector_divides_by_zero (sqrt' : ℚ → ℚ)
    (h0 : sqrt' 0 = 0) :
    dotList [0, 0] [1, 0] = 0 ∧
    sqrt' (normSqList [0, 0]) * sqrt' (normSqList [1, 0]) = 0 := by
  refine ⟨by norm_num [dotList, List.zipWith], ?_⟩
  have h : normSqList [0, 0] = 0 := by
    norm_num [normSqList, dotList, List.zipWith]
  rw [h, h0, zero_mul]

/-- Witness for C8's evaluation, with the identity as the square root
oracle (only its value at 0 matters). -/
theorem cosine_zero_vector_divides_by_zero_witness :
    dotList [0, 0] [1, 0] = 0 ∧
    (fun x => x) (normSqList [0, 0]) * (fun x => x) (normSqList [1, 0]) = 0 :=
  cosine_zero_vector_divides_by_zero (fun x => x) rfl

/-- C9: any two clients constructed in degraded mode — whatever model names
were requested — are the identical record ⟨none, "fallback"⟩, so they return
the identical vector on every text and both carry the label "fallback". -/
theorem degraded_noninterference (load1 load2 : String → Except LoadErr Model)
    (n1 n2 : String) (e1 e2 : HuggingFaceEmbedder)
    (h1 : HuggingFaceEmbedder.init load1 n1 = .ok e1)
    (h2 : HuggingFaceEmbedder.init load2 n2 = .ok e2)
    (hd1 : e1.model = none) (hd2 : e2.model = none) :
    (∀ t, get_embedding e1 t = get_embedding e2 t) ∧
    e1.model_name = "fallback" ∧ e2.model_name = "fallback" := by
  rcases init_ok_cases load1 n1 e1 h1 with ⟨m, _, rfl⟩ | ⟨_, rfl⟩
  · cases hd1
  · rcases init_ok_cases load2 n2 e2 h2 with ⟨m, _, rfl⟩ | ⟨_, rfl⟩
    · cases hd2
    · exact ⟨fun t => rfl, rfl, rfl⟩

/-- Witness for C9: two degraded constructions with different requested
model names, compared on the text "baz". -/
theorem degraded_noninterference_witness :
    get_embedding ⟨none, "fallback"⟩ [98, 97, 122] =
      get_embedding ⟨none, "fallback"⟩ [98, 97, 122] ∧
    (⟨none, "fallback"⟩ : HuggingFaceEmbedder).model_name = "fallback" :=
  ⟨(degraded_noninterference (fun _ => .error .importError)
      (fun _ => .error .importError) "model-a" "model-b"
      ⟨none, "fallback"⟩ ⟨none, "fallback"⟩ rfl rfl rfl rfl).1 [98, 97, 122],
   (degraded_noninterference (fun _ => .error .importError)
      (fun _ => .error .importError) "model-a" "model-b"
      ⟨none, "fallback"⟩ ⟨none, "fallback"⟩ rfl rfl rfl rfl).2.1⟩

/-- The dot product is symmetric (the demo's vectors are equal-length, and
`zipWith` multiplication commutes). -/
theorem dotList_comm (a b : List ℚ) : dotList a b = dotList b a := by
  unfold dotList
  rw [List.zipWith_comm_of_comm (fun x y => x * y) mul_comm]

/-- C10: `cosine_similarity` is symmetric on equal-length non-zero vectors
(for any square-root oracle): the dot product and the product of norms are
both symmetric. -/
theorem cosine_similarity_symm (sqrt' : ℚ → ℚ) (a b : List ℚ)
    (hlen : a.length = b.length) (ha : ∃ x ∈ a, x ≠ 0)
    (hb : ∃ x ∈ b, x ≠ 0) :
    cosine_similarity sqrt' a b = cosine_similarity sqrt' b a := by
  unfold cosine_similarity
  rw [dotList_comm, mul_comm]

/-- Witness for C10 on concrete equal-length non-zero vectors. -/
theorem cosine_similarity_symm_witness :
    cosine_similarity (fun x => x) [1, 0] [0, 2] =
      cosine_similarity (fun x => x) [0, 2] [1, 0] :=
  cosine_similarity_symm (fun x => x) [1, 0] [0, 2] rfl
    ⟨1, by norm_num, by norm_num⟩ ⟨2, by norm_num, by norm_num⟩
